import Mathlib

/-!
Verification of the TrashGuard data ingestion & spatial aggregation pipeline
(`src/modules/data_handler.py`, function `load_and_process_data`).

The pipeline fetches illegal-dumping records from a CKAN SQL endpoint,
parses and window-filters timestamps, coerces coordinates, buckets rows
into a fixed-resolution grid and emits capped-weight heat points, the whole
wrapped in a TTL memoization decorator (`@st.cache_data(ttl=CACHE_TTL)`).

Modelling conventions:
* Timestamps are integers (seconds since an arbitrary epoch); 90 days are
  `90 * 86400` seconds, exactly as `datetime.timedelta(days=90)`.
* Values produced by `pd.to_numeric(..., errors='coerce')` live in `ENum`:
  a finite rational, `+inf`, `-inf`, or `NaN`.  `df.dropna` removes `NaN`
  (and only `NaN`); infinities are ordinary float values for pandas.
* `np.round` rounds half to even; `hround` implements that on rationals.
* The permissive timestamp parser `pd.to_datetime(..., errors='coerce')`
  is modelled at the level of its result (`TSVal`): a parsed value is
  timezone-naive or timezone-aware, or `NaT` on failure.  A column that
  mixes naive and aware parsed values cannot be formed as a datetime64
  column; the date-processing block raises and the surrounding
  `try/except` returns the `(None, None)` marker.
* The fetch (`requests.get` + `raise_for_status` + `.json()`) is modelled
  by its outcome `FetchOutcome`: an HTTP error, a network exception, or a
  JSON body with a `success` flag and a record list.
-/

/-- An exact rational, stored as a normalized numerator/denominator pair
(denominator positive, fraction in lowest terms when built by `Q.norm`).
Exact rationals model the finite float values flowing through the
pipeline; all concrete values the claims touch are far from rounding
ties, so exact arithmetic agrees with float64 there.  (Mathlib's `Rat`
arithmetic is not kernel-reducible, so witnesses could not evaluate it;
this type is plain structural arithmetic.) -/
structure Q where
  num : Int
  den : Int
deriving DecidableEq, Repr

/-- Canonical form of `n / d`: positive denominator, lowest terms.
Equal rationals built by `Q.norm` are structurally equal, so grouping
by structural equality groups by numeric value. -/
def Q.norm (n d : Int) : Q :=
  if d = 0 then ⟨0, 1⟩
  else
    let g : Int := Int.gcd n d
    let n' := n / g
    let d' := d / g
    if d' < 0 then ⟨-n', -d'⟩ else ⟨n', d'⟩

def Q.ofInt (n : Int) : Q := ⟨n, 1⟩

def Q.add (a b : Q) : Q := Q.norm (a.num * b.den + b.num * a.den) (a.den * b.den)

def Q.sub (a b : Q) : Q := Q.norm (a.num * b.den - b.num * a.den) (a.den * b.den)

def Q.mul (a b : Q) : Q := Q.norm (a.num * b.num) (a.den * b.den)

def Q.div (a b : Q) : Q := Q.norm (a.num * b.den) (a.den * b.num)

def Q.neg (a : Q) : Q := ⟨-a.num, a.den⟩

/-- Strict order, valid on positive-denominator values (all values built
by `Q.norm` / `Q.ofInt` are). -/
def Q.lt (a b : Q) : Bool := a.num * b.den < b.num * a.den

/-- Floor, valid on positive-denominator values. -/
def Q.floor (a : Q) : Int := Int.fdiv a.num a.den

/-- Result of numeric coercion, mirroring pandas float semantics:
finite value, positive/negative infinity, or NaN. -/
inductive ENum where
  | fin : Q → ENum
  | pinf : ENum
  | ninf : ENum
  | nan : ENum
deriving DecidableEq, Repr

/-- `NaN` test: `df.dropna` removes exactly these values. -/
def ENum.isNaN : ENum → Bool
  | .nan => true
  | _ => false

/-- Multiplication by the grid resolution 500 (`df[lat_col] * 500`). -/
def ENum.mul500 : ENum → ENum
  | .fin q => .fin (q.mul (Q.ofInt 500))
  | .pinf => .pinf
  | .ninf => .ninf
  | .nan => .nan

/-- Division by the grid resolution 500 (`t[0] / 500`). -/
def ENum.div500 : ENum → ENum
  | .fin q => .fin (q.div (Q.ofInt 500))
  | .pinf => .pinf
  | .ninf => .ninf
  | .nan => .nan

/-- Round half to even on rationals, the rounding mode of `np.round`. -/
def hround (q : Q) : Int :=
  let f := q.floor
  let frac := q.sub (Q.ofInt f)
  if frac.lt ⟨1, 2⟩ then f
  else if Q.lt ⟨1, 2⟩ frac then f + 1
  else if f % 2 = 0 then f else f + 1

/-- `np.round` lifted to coerced values (infinities round to themselves). -/
def ENum.eround : ENum → ENum
  | .fin q => .fin (Q.ofInt (hround q))
  | .pinf => .pinf
  | .ninf => .ninf
  | .nan => .nan

/-- A JSON field value as it can appear in a CKAN record: a string, a
finite number, a non-standard `Infinity` literal (accepted by Python's
`json.loads`, hence by `response.json()`), or `null`. -/
inductive FieldVal where
  | str : String → FieldVal
  | num : Q → FieldVal
  | infLit : Bool → FieldVal
  | null : FieldVal
deriving DecidableEq, Repr

/-- Digits to a natural number; the empty list reads as 0. -/
def digitsVal (cs : List Char) : Nat :=
  cs.foldl (fun a c => a * 10 + (c.toNat - '0'.toNat)) 0

/-- `sign? (digits [. digits?] | . digits)` — the decimal forms accepted
by the pandas numeric parser.  Returns `none` when the shape is wrong. -/
def parseDecimal (cs : List Char) : Option Q :=
  let ip := cs.takeWhile (·.isDigit)
  let rest := cs.dropWhile (·.isDigit)
  match rest with
  | [] => if ip.isEmpty then none else some (Q.ofInt (digitsVal ip))
  | '.' :: fs =>
    if fs.all (·.isDigit) && (!ip.isEmpty || !fs.isEmpty) then
      some ((Q.ofInt (digitsVal ip)).add
        ((Q.ofInt (digitsVal fs)).div (Q.ofInt ((10 : Int) ^ fs.length))))
    else none
  | _ => none

/-- ASCII lowercase (character-level; `String.toLower` itself is not
kernel-reducible). -/
def lowerChar (c : Char) : Char :=
  if 65 ≤ c.toNat && c.toNat ≤ 90 then Char.ofNat (c.toNat + 32) else c

def isSpaceChar (c : Char) : Bool :=
  c = ' ' || c = '\t' || c = '\n' || c = '\r'

/-- Strip surrounding whitespace (character-level `String.trim`). -/
def trimChars (cs : List Char) : List Char :=
  ((cs.dropWhile isSpaceChar).reverse.dropWhile isSpaceChar).reverse

/-- String-to-float coercion as performed by
`pd.to_numeric(..., errors='coerce')`: surrounding whitespace is ignored,
an optional sign is followed by a decimal literal or by
`inf`/`infinity`/`nan` (case-insensitive); anything else coerces to NaN.
(The model omits exponent notation, which no claim exercises.) -/
def coerceStr (s : String) : ENum :=
  let (neg, body) :=
    match trimChars (s.data.map lowerChar) with
    | '-' :: rest => (true, rest)
    | '+' :: rest => (false, rest)
    | cs => (false, cs)
  if body = "inf".data || body = "infinity".data then
    if neg then .ninf else .pinf
  else if body = "nan".data then .nan
  else
    match parseDecimal body with
    | some q => .fin (if neg then q.neg else q)
    | none => .nan

/-- `pd.to_numeric(..., errors='coerce')` on one cell.  A missing cell
(absent key) is NaN in the DataFrame and stays NaN. -/
def toNumeric : Option FieldVal → ENum
  | none => .nan
  | some (.str s) => coerceStr s
  | some (.num q) => .fin q
  | some (.infLit neg) => if neg then .ninf else .pinf
  | some .null => .nan

/-- Outcome of `pd.to_datetime(cell, errors='coerce')` on one cell:
a timezone-naive or timezone-aware instant (seconds), or `NaT`. -/
inductive TSVal where
  | naive : Int → TSVal
  | aware : Int → TSVal
  | nat : TSVal
deriving DecidableEq, Repr

def TSVal.isNaive : TSVal → Bool
  | .naive _ => true
  | _ => false

def TSVal.isAware : TSVal → Bool
  | .aware _ => true
  | _ => false

/-- One row as returned by the CKAN SQL query
(`SELECT "Latitude", "Longitude", "Status", "Date Created"`).
A `none` field models a key absent from the record: a DataFrame column
only exists when at least one record carries the key. -/
structure RawRecord where
  latitude : Option FieldVal
  longitude : Option FieldVal
  status : Option FieldVal
  dateCreated : Option TSVal
deriving DecidableEq, Repr

/-- Outcome of the fetch block (lines 43-49): `raise_for_status` raising
on a non-2xx status, a network/JSON exception, or a decoded body with its
CKAN `success` flag and `result.records` list. -/
inductive FetchOutcome where
  | httpError : FetchOutcome
  | netError : FetchOutcome
  | body : Bool → List RawRecord → FetchOutcome
deriving DecidableEq, Repr

/-- Cell value seen by `pd.to_datetime` for a record: an absent key is a
missing value, which parses to `NaT`. -/
def parsedDate (r : RawRecord) : TSVal := r.dateCreated.getD .nat

/-- The `"Date Created"` column exists iff some record carries the key. -/
def hasDateCol (records : List RawRecord) : Bool :=
  records.any (·.dateCreated.isSome)

/-- The `"Latitude"` column exists iff some record carries the key. -/
def hasLatCol (records : List RawRecord) : Bool :=
  records.any (·.latitude.isSome)

/-- The `"Longitude"` column exists iff some record carries the key. -/
def hasLonCol (records : List RawRecord) : Bool :=
  records.any (·.longitude.isSome)

/-- A batch whose parsed timestamps mix naive and aware values cannot be
held in one datetime64 column: the date-processing block raises (either
in `pd.to_datetime` itself or at the `.dt.tz` accessor on the resulting
object column) and the exception is caught by the `try/except`. -/
def mixedTz (records : List RawRecord) : Bool :=
  records.any (fun r => (parsedDate r).isNaive) &&
  records.any (fun r => (parsedDate r).isAware)

/-- A record together with its parsed creation instant
(the `created_datetime` column after `dropna`). -/
structure DRow where
  raw : RawRecord
  created : Int
deriving DecidableEq, Repr

/-- `df.dropna(subset=['created_datetime'])`: keep rows whose timestamp
parsed, pairing each with its instant. -/
def dropUnparsable (records : List RawRecord) : List DRow :=
  records.filterMap fun r =>
    match parsedDate r with
    | .naive n => some ⟨r, n⟩
    | .aware n => some ⟨r, n⟩
    | .nat => none

/-- The 90-day window (`datetime.timedelta(days=90)`), in seconds. -/
def WINDOW_SECONDS : Int := 90 * 86400

/-- Lines 88-91: `cutoff_date = now - timedelta(days=90)` (stripped to a
naive value when the column is naive, which leaves the instant unchanged);
keep rows with `created_datetime >= cutoff_date`. -/
def filterByWindow (rows : List DRow) (now : Int) : List DRow :=
  rows.filter fun d => now - WINDOW_SECONDS ≤ d.created

/-- A row after coordinate coercion (lines 107-108). -/
structure VRow where
  raw : RawRecord
  created : Int
  lat : ENum
  lng : ENum
deriving DecidableEq, Repr

/-- `pd.to_numeric` on both coordinate columns of one row. -/
def geoCoerce (d : DRow) : VRow :=
  ⟨d.raw, d.created, toNumeric d.raw.latitude, toNumeric d.raw.longitude⟩

/-- Lines 107-110: coerce both coordinate columns, then
`df.dropna(subset=[lat_col, lon_col])` — which removes NaN and only NaN. -/
def validateCoords (rows : List DRow) : List VRow :=
  (rows.map geoCoerce).filter fun v => !v.lat.isNaN && !v.lng.isNaN

/-- A row with its assigned grid tile (the `tile` column). -/
structure ProcRow where
  raw : RawRecord
  created : Int
  lat : ENum
  lng : ENum
  tile : ENum × ENum
deriving DecidableEq, Repr

/-- Line 120: `tile = (np.round(lat * 500), np.round(lon * 500))`. -/
def assignTile (v : VRow) : ProcRow :=
  ⟨v.raw, v.created, v.lat, v.lng, (v.lat.mul500.eround, v.lng.mul500.eround)⟩

def assignTiles (rows : List VRow) : List ProcRow := rows.map assignTile

/-- One heatmap point `{"location": {"lat", "lng"}, "weight"}`. -/
structure HeatPoint where
  lat : ENum
  lng : ENum
  weight : Nat
deriving DecidableEq, Repr

/-- The distinct tile keys of the batch (the groups of
`df.groupby("tile")`; pandas enumerates groups in sorted key order, the
model without duplicates in list order — every claim below is insensitive
to group order). -/
def tileKeys (rows : List ProcRow) : List (ENum × ENum) :=
  (rows.map (·.tile)).dedup

/-- `groupby("tile").size()` for one tile key. -/
def tileCount (rows : List ProcRow) (t : ENum × ENum) : Nat :=
  rows.countP fun r => r.tile = t

/-- Line 125: `max_weight = 15`. -/
def max_weight : Nat := 15

/-- Lines 122-129: group by tile, take group sizes, anchor each tile at
`key / 500` and cap the weight at `max_weight`. -/
def aggregate (rows : List ProcRow) : List HeatPoint :=
  (tileKeys rows).map fun t =>
    ⟨t.1.div500, t.2.div500, min (tileCount rows t) max_weight⟩

/-- `load_and_process_data` (lines 16-136), as a function of the fetch
outcome and the current instant.  Returns the pair
`(processed dataset, hotspot list)`, each component `none` exactly where
the Python returns `None`.  The `mixedTz` branch is the exception raised
inside the date-processing `try` block (see `mixedTz`), caught at line
97 and turned into `(None, None)`. -/
def load_and_process_data (resource_id : String) (outcome : FetchOutcome)
    (now : Int) : Option (List ProcRow) × Option (List HeatPoint) :=
  if resource_id = "" then (none, none)
  else
    match outcome with
    | .httpError => (none, none)
    | .netError => (none, none)
    | .body ok records =>
      if !ok then (none, none)
      else if records.isEmpty then (some [], some [])
      else if !hasDateCol records then (none, none)
      else if mixedTz records then (none, none)
      else
        let rows1 := dropUnparsable records
        if rows1.isEmpty then (some [], some [])
        else
          let rows2 := filterByWindow rows1 now
          if rows2.isEmpty then (some [], some [])
          else if !(hasLatCol records && hasLonCol records) then (none, none)
          else
            let rows3 := validateCoords rows2
            if rows3.isEmpty then (some [], some [])
            else
              let proc := assignTiles rows3
              (some proc, some (aggregate proc))

/-- `CACHE_TTL = 6 * 60 * 60` seconds (line 13). -/
def CACHE_TTL : Int := 6 * 60 * 60

/-- One memoization entry of `@st.cache_data`. -/
structure CacheEntry where
  key : String
  storedAt : Int
  value : Option (List ProcRow) × Option (List HeatPoint)
deriving DecidableEq, Repr

/-- A stored entry for this key that is still within its TTL. -/
def lookupFresh (cache : List CacheEntry) (k : String) (now : Int) :
    Option CacheEntry :=
  cache.find? fun e => e.key = k && decide (now - e.storedAt < CACHE_TTL)

/-- `@st.cache_data(ttl=CACHE_TTL)` around `load_and_process_data`:
on a fresh hit the stored value is returned without running the body;
otherwise the body runs and its return value — whatever it is — is
stored.  (Streamlit skips storing only when the body raises; this body
catches its exceptions and returns `(None, None)`, which is stored like
any value.)  The result triple is (value, new cache, whether the body
ran). -/
def cachedLoad (cache : List CacheEntry) (resource_id : String)
    (outcome : FetchOutcome) (now : Int) :
    (Option (List ProcRow) × Option (List HeatPoint)) × List CacheEntry × Bool :=
  match lookupFresh cache resource_id now with
  | some e => (e.value, cache, false)
  | none =>
    let r := load_and_process_data resource_id outcome now
    (r, ⟨resource_id, now, r⟩ :: cache, true)

/-! ## Helper lemmas -/

/-- Every tile key the aggregator groups on is the tile of some row. -/
theorem tileKeys_subset (rows : List ProcRow) (t : ENum × ENum)
    (h : t ∈ tileKeys rows) : t ∈ rows.map (·.tile) :=
  List.mem_dedup.mp h

/-- A batch that mixes naive and aware parsed timestamps is nonempty and
its `"Date Created"` column exists. -/
theorem mixedTz_facts {records : List RawRecord} (h : mixedTz records = true) :
    hasDateCol records = true ∧ records.isEmpty = false := by
  unfold mixedTz at h
  rw [Bool.and_eq_true] at h
  have hnaive := h.1
  rcases List.any_eq_true.mp hnaive with ⟨r, hr, hna⟩
  constructor
  · refine List.any_eq_true.mpr ⟨r, hr, ?_⟩
    cases hd : r.dateCreated with
    | none => rw [parsedDate, hd] at hna; simp [TSVal.isNaive] at hna
    | some t => simp
  · cases records with
    | nil => simp at hr
    | cons a as => rfl

/-- A row surviving the `NaT` drop witnesses a present, parsed
`"Date Created"` cell, hence a present column and a nonempty batch. -/
theorem dropUnparsable_facts {records : List RawRecord} {d : DRow}
    (h : d ∈ dropUnparsable records) :
    hasDateCol records = true ∧ records.isEmpty = false := by
  rcases List.mem_filterMap.mp h with ⟨r, hr, hmap⟩
  constructor
  · refine List.any_eq_true.mpr ⟨r, hr, ?_⟩
    cases hd : r.dateCreated with
    | none =>
      rw [parsedDate, hd] at hmap
      simp [Option.getD] at hmap
    | some t => simp
  · cases records with
    | nil => simp at hr
    | cons a as => rfl

/-- The window filter only keeps rows of its input. -/
theorem filterByWindow_subset {rows : List DRow} {now : Int} {d : DRow}
    (h : d ∈ filterByWindow rows now) : d ∈ rows :=
  (List.mem_filter.mp h).1

/-! ## Claim theorems -/

/-- C1: a successful fetch with zero rows returns the
`(empty dataset, empty heat-point list)` pair, while a non-2xx HTTP
status, a network exception, or a body with a false success flag each
return the absence-marker pair `(None, None)`. -/
theorem c1_empty_vs_error (rid : String) (now : Int) (h : rid ≠ "") :
    load_and_process_data rid (.body true []) now = (some [], some []) ∧
    load_and_process_data rid .httpError now = (none, none) ∧
    load_and_process_data rid .netError now = (none, none) ∧
    ∀ records, load_and_process_data rid (.body false records) now =
      (none, none) := by
  refine ⟨?_, ?_, ?_, fun records => ?_⟩ <;>
    simp [load_and_process_data, h]

/-- C1 witness: the four outcomes at `resource_id = "r"`, `now = 0`. -/
theorem c1_empty_vs_error_witness :
    load_and_process_data "r" (.body true []) 0 = (some [], some []) ∧
    load_and_process_data "r" .httpError 0 = (none, none) ∧
    load_and_process_data "r" .netError 0 = (none, none) ∧
    load_and_process_data "r" (.body false []) 0 = (none, none) :=
  ⟨(c1_empty_vs_error "r" 0 (by decide)).1,
   (c1_empty_vs_error "r" 0 (by decide)).2.1,
   (c1_empty_vs_error "r" 0 (by decide)).2.2.1,
   (c1_empty_vs_error "r" 0 (by decide)).2.2.2 []⟩

/-- An arbitrary record, used to state boundary instances. -/
def anyRec : RawRecord := ⟨none, none, none, none⟩

/-- C3: the window filter keeps exactly the rows whose parsed timestamp
is `≥ now - 90 days`; a row exactly 90 days old is kept, one 91 days old
is dropped. -/
theorem c3_window_boundary (now : Int) :
    (∀ (rows : List DRow) (d : DRow),
      d ∈ filterByWindow rows now ↔
        d ∈ rows ∧ now - 90 * 86400 ≤ d.created) ∧
    (⟨anyRec, now - 90 * 86400⟩ : DRow) ∈
      filterByWindow
        [⟨anyRec, now - 90 * 86400⟩, ⟨anyRec, now - 91 * 86400⟩] now ∧
    (⟨anyRec, now - 91 * 86400⟩ : DRow) ∉
      filterByWindow
        [⟨anyRec, now - 90 * 86400⟩, ⟨anyRec, now - 91 * 86400⟩] now := by
  refine ⟨fun rows d => ?_, ?_, ?_⟩
  · simp [filterByWindow, List.mem_filter, WINDOW_SECONDS]
  · simp [filterByWindow, List.mem_filter, WINDOW_SECONDS]
  · simp only [filterByWindow, WINDOW_SECONDS, List.mem_filter]
    intro hmem
    have := hmem.2
    simp only [decide_eq_true_eq] at this
    omega

/-- C3 witness: the boundary instances at `now = 0`. -/
theorem c3_window_boundary_witness :
    (⟨anyRec, -(90 * 86400)⟩ : DRow) ∈
      filterByWindow [⟨anyRec, -(90 * 86400)⟩, ⟨anyRec, -(91 * 86400)⟩] 0 ∧
    (⟨anyRec, -(91 * 86400)⟩ : DRow) ∉
      filterByWindow [⟨anyRec, -(90 * 86400)⟩, ⟨anyRec, -(91 * 86400)⟩] 0 := by
  have h := c3_window_boundary 0
  constructor
  · have := h.2.1
    simpa using this
  · have := h.2.2
    simpa using this

/-- C10: every invocation returns either `(None, None)` or a pair in
which both the dataset and the heat-point list are present; no mixed
pair with exactly one absence marker can occur. -/
theorem c10_no_mixed_pair (rid : String) (outcome : FetchOutcome)
    (now : Int) :
    load_and_process_data rid outcome now = (none, none) ∨
    ∃ ds hs, load_and_process_data rid outcome now = (some ds, some hs) := by
  simp only [load_and_process_data]
  repeat' split
  all_goals first
    | exact Or.inl rfl
    | exact Or.inr ⟨_, _, rfl⟩

/-- C2: every emitted heat point carries the weight `min(c, 15)` where
`c` is the raw member count of its tile. -/
theorem c2_weight_cap (rows : List ProcRow) (hp : HeatPoint)
    (hmem : hp ∈ aggregate rows) :
    ∃ t, t ∈ rows.map (·.tile) ∧ hp.lat = t.1.div500 ∧
      hp.lng = t.2.div500 ∧
      hp.weight = min ((rows.filter fun r => r.tile = t).length) max_weight := by
  unfold aggregate at hmem
  rcases List.mem_map.mp hmem with ⟨t, ht, rfl⟩
  refine ⟨t, tileKeys_subset rows t ht, rfl, rfl, ?_⟩
  simp only [tileCount]
  rw [List.countP_eq_length_filter]

/-- 42 rows on one tile and 3 on another, for the weight-cap instances. -/
def hotRow : ProcRow :=
  ⟨anyRec, 0, .fin (Q.ofInt 1), .fin (Q.ofInt 2),
   (.fin (Q.ofInt 500), .fin (Q.ofInt 1000))⟩

def coldRow : ProcRow :=
  ⟨anyRec, 0, .fin (Q.ofInt 3), .fin (Q.ofInt 4),
   (.fin (Q.ofInt 1500), .fin (Q.ofInt 2000))⟩

def capRows : List ProcRow :=
  List.replicate 42 hotRow ++ List.replicate 3 coldRow

/-- The heat point the aggregator is expected to emit for `hotRow`. -/
def hotPoint : HeatPoint := ⟨.fin (Q.ofInt 1), .fin (Q.ofInt 2), 15⟩

/-- The heat point the aggregator is expected to emit for `coldRow`. -/
def coldPoint : HeatPoint := ⟨.fin (Q.ofInt 3), .fin (Q.ofInt 4), 3⟩

/-- C2 witness: a tile with count 42 is emitted with weight 15 and a
tile with count 3 with weight 3. -/
theorem c2_weight_cap_witness :
    (hotPoint ∈ aggregate capRows ∧
      ∃ t, t ∈ capRows.map (·.tile) ∧
        hotPoint.lat = t.1.div500 ∧
        hotPoint.lng = t.2.div500 ∧
        hotPoint.weight =
          min ((capRows.filter fun r => r.tile = t).length) max_weight) ∧
    (coldPoint ∈ aggregate capRows ∧
      ∃ t, t ∈ capRows.map (·.tile) ∧
        coldPoint.lat = t.1.div500 ∧
        coldPoint.lng = t.2.div500 ∧
        coldPoint.weight =
          min ((capRows.filter fun r => r.tile = t).length) max_weight) :=
  ⟨⟨by decide, c2_weight_cap capRows _ (by decide)⟩,
   ⟨by decide, c2_weight_cap capRows _ (by decide)⟩⟩

/-- C4: each row is assigned the tile key
`(round(lat * 500), round(lng * 500))`, and every emitted heat point is
anchored at `bucket / 500` for the tile of one of the aggregated rows. -/
theorem c4_tile_anchor (rows : List VRow) :
    (∀ v ∈ rows, ∀ a b : Q, v.lat = .fin a → v.lng = .fin b →
      (assignTile v).tile =
        (.fin (Q.ofInt (hround (a.mul (Q.ofInt 500)))),
         .fin (Q.ofInt (hround (b.mul (Q.ofInt 500)))))) ∧
    (∀ hp ∈ aggregate (assignTiles rows), ∃ p, p ∈ assignTiles rows ∧
      hp.lat = p.tile.1.div500 ∧ hp.lng = p.tile.2.div500) := by
  constructor
  · rintro v _ a b ha hb
    simp [assignTile, ha, hb, ENum.mul500, ENum.eround]
  · intro hp hmem
    unfold aggregate at hmem
    rcases List.mem_map.mp hmem with ⟨t, ht, rfl⟩
    rcases List.mem_map.mp (tileKeys_subset _ _ ht) with ⟨p, hpmem, hpt⟩
    exact ⟨p, hpmem, by rw [hpt], by rw [hpt]⟩

/-- A sample coerced row at `(3.7, -5)`. -/
def vEx : VRow := ⟨anyRec, 0, .fin (Q.norm 37 10), .fin (Q.ofInt (-5))⟩

/-- The heat point anchored at the sample row's tile. -/
def vExPoint : HeatPoint := ⟨.fin (Q.norm 37 10), .fin (Q.ofInt (-5)), 1⟩

/-- C4 witness: tile key and anchored heat point for the sample row. -/
theorem c4_tile_anchor_witness :
    ((assignTile vEx).tile =
      (.fin (Q.ofInt (hround ((Q.norm 37 10).mul (Q.ofInt 500)))),
       .fin (Q.ofInt (hround ((Q.ofInt (-5)).mul (Q.ofInt 500)))))) ∧
    ∃ p, p ∈ assignTiles [vEx] ∧
      vExPoint.lat = p.tile.1.div500 ∧
      vExPoint.lng = p.tile.2.div500 :=
  ⟨(c4_tile_anchor [vEx]).1 vEx (by decide) (Q.norm 37 10) (Q.ofInt (-5))
      rfl rfl,
   (c4_tile_anchor [vEx]).2 vExPoint (by decide)⟩

/-- First scenario row: `lat "37.3382"`, `lng "-121.8863"`, one day old. -/
def c5r1 : RawRecord :=
  ⟨some (.str "37.3382"), some (.str "-121.8863"), none,
   some (.naive (-86400))⟩

/-- Second scenario row: `lat "37.3383"`, `lng "-121.8864"`, one day old. -/
def c5r2 : RawRecord :=
  ⟨some (.str "37.3383"), some (.str "-121.8864"), none,
   some (.naive (-86400))⟩

/-- Third scenario row: `lat "40.0"`, `lng "-70.0"`, 200 days old. -/
def c5r3 : RawRecord :=
  ⟨some (.str "40.0"), some (.str "-70.0"), none,
   some (.naive (-(200 * 86400)))⟩

/-- C5: on the three-row scenario (taking `now = 0`), the first two rows
bucket to tile `(18669, -60943)`, the third is dropped by the 90-day
window, and the pipeline emits exactly one heat point of weight 2. -/
theorem c5_scenario :
    (assignTile (geoCoerce ⟨c5r1, -86400⟩)).tile =
      (.fin (Q.ofInt 18669), .fin (Q.ofInt (-60943))) ∧
    (assignTile (geoCoerce ⟨c5r2, -86400⟩)).tile =
      (.fin (Q.ofInt 18669), .fin (Q.ofInt (-60943))) ∧
    filterByWindow (dropUnparsable [c5r1, c5r2, c5r3]) 0 =
      [⟨c5r1, -86400⟩, ⟨c5r2, -86400⟩] ∧
    (load_and_process_data "rid" (.body true [c5r1, c5r2, c5r3]) 0).2 =
      some [⟨.fin (Q.norm 18669 500), .fin (Q.norm (-60943) 500), 2⟩] := by
  decide

/-- The cache state left by a first call that hit a network error. -/
def c6cache : List CacheEntry := (cachedLoad [] "r" .netError 0).2.1

/-- C6 counterexample: a failing run stores `(None, None)` in the cache;
a second call for the same source id within the TTL returns the cached
failure without running the pipeline (`ran = false`), even though the
upstream would now answer successfully. -/
theorem c6_counterexample :
    (cachedLoad [] "r" .netError 0).1 = (none, none) ∧
    (cachedLoad [] "r" .netError 0).2.2 = true ∧
    (cachedLoad c6cache "r" (.body true []) 3600).2.2 = false ∧
    (cachedLoad c6cache "r" (.body true []) 3600).1 = (none, none) := by
  decide

/-- C6 amended: a pipeline failure IS stored by `@st.cache_data` like any
return value; any later call for the same source id within the TTL
returns the cached `(None, None)` without re-running the pipeline. -/
theorem c6_failure_is_cached (cache : List CacheEntry) (rid : String)
    (outcome outcome2 : FetchOutcome) (now now2 : Int)
    (hmiss : lookupFresh cache rid now = none)
    (hfail : load_and_process_data rid outcome now = (none, none))
    (hfresh : now2 - now < CACHE_TTL) :
    cachedLoad ((cachedLoad cache rid outcome now).2.1) rid outcome2 now2 =
      ((none, none), (cachedLoad cache rid outcome now).2.1, false) := by
  have h1 : cachedLoad cache rid outcome now =
      ((none, none), ⟨rid, now, (none, none)⟩ :: cache, true) := by
    rw [cachedLoad.eq_def, hmiss, hfail]
  have h2 : lookupFresh (⟨rid, now, (none, none)⟩ :: cache) rid now2 =
      some ⟨rid, now, (none, none)⟩ := by
    unfold lookupFresh
    apply List.find?_cons_of_pos
    simp [hfresh]
  rw [h1, cachedLoad.eq_def, h2]

/-- C6 amended witness: the concrete failing-then-fresh call pair. -/
theorem c6_failure_is_cached_witness :
    cachedLoad ((cachedLoad [] "r" .netError 0).2.1) "r" (.body true []) 3600 =
      ((none, none), (cachedLoad [] "r" .netError 0).2.1, false) :=
  c6_failure_is_cached [] "r" .netError (.body true []) 0 3600
    (by decide) (by decide) (by decide)

/-- A record whose timestamp parses timezone-naive. -/
def c7naive : RawRecord :=
  ⟨some (.num (Q.ofInt 37)), some (.num (Q.ofInt (-121))), none,
   some (.naive (-100))⟩

/-- The same coordinates with a timezone-aware timestamp. -/
def c7aware : RawRecord :=
  ⟨some (.num (Q.ofInt 37)), some (.num (Q.ofInt (-121))), none,
   some (.aware (-100))⟩

/-- C7 counterexample: each of the two rows processes to a heat-point
list on its own, but the batch containing both — mixed awareness —
returns the absence markers `(None, None)` instead of a filtered
result. -/
theorem c7_counterexample :
    mixedTz [c7naive, c7aware] = true ∧
    (load_and_process_data "r" (.body true [c7naive]) 0).2.isSome = true ∧
    (load_and_process_data "r" (.body true [c7aware]) 0).2.isSome = true ∧
    load_and_process_data "r" (.body true [c7naive, c7aware]) 0 =
      (none, none) := by
  decide

/-- C7 amended: a batch mixing timezone-naive and timezone-aware parsed
timestamps makes the date-processing stage raise; the exception is
caught and the invocation returns `(None, None)` — no normalization to a
common awareness takes place. -/
theorem c7_mixed_batch_aborts (rid : String) (records : List RawRecord)
    (now : Int) (h : rid ≠ "") (hmix : mixedTz records = true) :
    load_and_process_data rid (.body true records) now = (none, none) := by
  obtain ⟨hdate, hne⟩ := mixedTz_facts hmix
  simp [load_and_process_data, h, hne, hdate, hmix]

/-- C7 amended witness: the mixed two-row batch at `now = 0`. -/
theorem c7_mixed_batch_aborts_witness :
    load_and_process_data "r" (.body true [c7naive, c7aware]) 0 =
      (none, none) :=
  c7_mixed_batch_aborts "r" [c7naive, c7aware] 0 (by decide) (by decide)

/-- A row whose latitude is the JSON `Infinity` literal. -/
def c8inf : RawRecord :=
  ⟨some (.infLit false), some (.num (Q.ofInt (-121))), none,
   some (.naive (-100))⟩

/-- C8 counterexample: a latitude coercing to the non-finite value
`+inf` is NOT dropped — `dropna` removes only NaN — and the row flows
through to a heat point anchored at an infinite latitude. -/
theorem c8_counterexample :
    toNumeric c8inf.latitude = .pinf ∧
    validateCoords [⟨c8inf, -100⟩] =
      [⟨c8inf, -100, .pinf, .fin (Q.ofInt (-121))⟩] ∧
    (load_and_process_data "r" (.body true [c8inf]) 0).2 =
      some [⟨.pinf, .fin (Q.ofInt (-121)), 1⟩] := by
  decide

/-- C8 amended: the geo stage drops exactly the rows whose latitude or
longitude coerces to NaN (coercion failure or missing value); `"N/A"`
coerces to NaN, and a dropped row never aborts the processing of the
remaining rows. -/
theorem c8_nan_rows_dropped (rows : List DRow) (v : VRow) :
    (v ∈ validateCoords rows ↔
      ∃ d ∈ rows, geoCoerce d = v ∧ v.lat.isNaN = false ∧
        v.lng.isNaN = false) ∧
    coerceStr "N/A" = .nan ∧
    ∀ dna dgood : DRow, (geoCoerce dna).lat.isNaN = true →
      (geoCoerce dgood).lat.isNaN = false →
      (geoCoerce dgood).lng.isNaN = false →
      validateCoords [dna, dgood] = [geoCoerce dgood] := by
  refine ⟨?_, by decide, ?_⟩
  · simp only [validateCoords, List.mem_filter, List.mem_map,
      Bool.and_eq_true, Bool.not_eq_true']
    constructor
    · rintro ⟨⟨d, hd, rfl⟩, h1, h2⟩
      exact ⟨d, hd, rfl, h1, h2⟩
    · rintro ⟨d, hd, rfl, h1, h2⟩
      exact ⟨⟨d, hd, rfl⟩, h1, h2⟩
  · intro dna dgood h1 h2 h3
    simp [validateCoords, List.filter_cons, h1, h2, h3]

/-- A row with latitude `"N/A"`. -/
def c8na : DRow :=
  ⟨⟨some (.str "N/A"), some (.num (Q.ofInt (-121))), none,
    some (.naive (-100))⟩, -100⟩

/-- A subsequent valid row. -/
def c8good : DRow :=
  ⟨⟨some (.num (Q.ofInt 37)), some (.num (Q.ofInt (-121))), none,
    some (.naive (-100))⟩, -100⟩

/-- C8 amended witness: the `"N/A"` row is dropped and the following
valid row is still processed. -/
theorem c8_nan_rows_dropped_witness :
    validateCoords [c8na, c8good] = [geoCoerce c8good] :=
  (c8_nan_rows_dropped [] (geoCoerce c8good)).2.2 c8na c8good
    (by decide) (by decide) (by decide)

/-- A record with no coordinate keys whose timestamp is out of window. -/
def c9old : RawRecord := ⟨none, none, none, some (.naive (-(200 * 86400)))⟩

/-- C9 counterexample: with the latitude and longitude columns entirely
absent from the schema, the pipeline still returns the empty-success
pair `(empty, [])` — not `(None, None)` — because the 90-day filter
empties the batch before the coordinate-column check runs. -/
theorem c9_counterexample :
    hasLatCol [c9old] = false ∧ hasLonCol [c9old] = false ∧
    load_and_process_data "r" (.body true [c9old]) 0 = (some [], some []) := by
  decide

/-- C9 amended: a missing `"Date Created"` column (nonempty fetch)
returns `(None, None)`; missing latitude/longitude columns return
`(None, None)` provided rows survive the date stage — an earlier
empty-result exit returns `(empty, [])` without reaching that check. -/
theorem c9_schema_abort (rid : String) (records : List RawRecord)
    (now : Int) (h : rid ≠ "") :
    (records.isEmpty = false → hasDateCol records = false →
      load_and_process_data rid (.body true records) now = (none, none)) ∧
    (mixedTz records = false →
      (filterByWindow (dropUnparsable records) now).isEmpty = false →
      (hasLatCol records && hasLonCol records) = false →
      load_and_process_data rid (.body true records) now = (none, none)) := by
  constructor
  · intro hne hdc
    simp [load_and_process_data, h, hne, hdc]
  · intro hmx hwin hcols
    have hrow : ∃ d, d ∈ filterByWindow (dropUnparsable records) now := by
      cases hw : filterByWindow (dropUnparsable records) now with
      | nil => rw [hw] at hwin; simp at hwin
      | cons a l => exact ⟨a, hw ▸ List.mem_cons_self a l⟩
    obtain ⟨d, hd⟩ := hrow
    have hd1 : d ∈ dropUnparsable records := filterByWindow_subset hd
    obtain ⟨hdate, hne⟩ := dropUnparsable_facts hd1
    have hdrop : (dropUnparsable records).isEmpty = false := by
      cases hdu : dropUnparsable records with
      | nil => rw [hdu] at hd1; simp at hd1
      | cons a l => rfl
    simp [load_and_process_data, h, hne, hdate, hmx, hdrop, hwin, hcols]

/-- A record carrying coordinates but no `"Date Created"` key. -/
def c9noDate : RawRecord :=
  ⟨some (.num (Q.ofInt 1)), some (.num (Q.ofInt 2)), none, none⟩

/-- A record with an in-window timestamp but no coordinate keys. -/
def c9noGeo : RawRecord := ⟨none, none, none, some (.naive 0)⟩

/-- C9 amended witness: both schema-error paths at concrete inputs. -/
theorem c9_schema_abort_witness :
    load_and_process_data "r" (.body true [c9noDate]) 0 = (none, none) ∧
    load_and_process_data "r" (.body true [c9noGeo]) 0 = (none, none) :=
  ⟨(c9_schema_abort "r" [c9noDate] 0 (by decide)).1 (by decide) (by decide),
   (c9_schema_abort "r" [c9noGeo] 0 (by decide)).2
     (by decide) (by decide) (by decide)⟩
